import Mathlib

/-!
A shallow embedding of the data-access layer of the `full-stack-Devops`
backend (files `backend/database/connection.py`,
`backend/database/operations.py`, `backend/verify_database.py`).

Modelling conventions:
* Database tables are Lean lists of records; one record structure per table.
* Generated identifiers (`session_id`, `message_id`, ...) are drawn from a
  counter `next_id` in the state; `NOW()` is an explicit `now : Nat` argument.
* JSON / jsonb metadata objects are association lists `List (String × JVal)`;
  the Postgres `||` jsonb concatenation (shallow union, right operand wins on
  key conflict) is `jsonbConcat`.
* Numeric values (vector components, similarity scores) are modelled as `Rat`.
  The pgvector cosine-distance operator `<=>` belongs to the database engine,
  which the specification places out of scope, so similarity search takes the
  distance function as an explicit parameter `dist`.
* Each fallible Python operation becomes a function
  `DbState → Except PyErr α × DbState`: the `Except` is the returned value or
  raised exception, the second component the table state after the call
  (unchanged when the call raises before modifying anything, or when a
  transaction rolls back).
-/

/-- A JSON scalar value, enough to populate metadata objects. -/
inductive JVal where
  | num (n : Int)
  | str (s : String)
  | boolean (b : Bool)
  | null
deriving DecidableEq, Repr

/-- A JSON object, as an association list of key/value pairs. -/
abbrev JObj := List (String × JVal)

/-- Key lookup in a JSON object (first binding wins, as in a map). -/
def JObj.get (o : JObj) (k : String) : Option JVal :=
  (o.find? (fun p => p.1 == k)).map (fun p => p.2)

/-- Postgres jsonb `||` on objects: shallow union of the key sets where the
right operand wins on conflicting keys. -/
def jsonbConcat (old new : JObj) : JObj :=
  old.filter (fun p => !(new.any (fun q => q.1 == p.1))) ++ new

/-- Value of a hexadecimal digit character. -/
def hexDigitVal (c : Char) : Nat :=
  if c.isDigit then c.toNat - 48
  else if 97 ≤ c.toNat ∧ c.toNat ≤ 102 then c.toNat - 87
  else if 65 ≤ c.toNat ∧ c.toNat ≤ 70 then c.toNat - 55
  else 0

/-- Whether a character is a hexadecimal digit. -/
def isHexDigitChar (c : Char) : Bool :=
  c.isDigit || (97 ≤ c.toNat && c.toNat ≤ 102) || (65 ≤ c.toNat && c.toNat ≤ 70)

/-- Worker for `pyRemove`: scans left to right, removing each non-overlapping
occurrence of `pat`; the fuel argument (initially the list length) makes the
recursion structural so that proofs can evaluate it. -/
def removeAux (pat : List Char) : Nat → List Char → List Char
  | _, [] => []
  | 0, l => l
  | fuel + 1, c :: rest =>
    if 0 < pat.length && (c :: rest).take pat.length == pat then
      removeAux pat fuel ((c :: rest).drop pat.length)
    else
      c :: removeAux pat fuel rest

/-- Python `s.replace(pat, '')`: removes every non-overlapping occurrence of
`pat`, scanning left to right (the identity when `pat` is empty, matching
Python replacement by the empty string). -/
def pyRemove (pat : String) (s : List Char) : List Char :=
  removeAux pat.toList s.length s

/-- Python `str.strip` restricted to the brace characters, as used by
`uuid.UUID`: removes leading and trailing characters drawn from the set
containing the two braces. -/
def pyStripBraces (s : List Char) : List Char :=
  let isBrace : Char → Bool := fun c => c.toNat == 123 || c.toNat == 125
  ((s.dropWhile isBrace).reverse.dropWhile isBrace).reverse

/-- CPython `uuid.UUID(hex=s)` string parsing: drop the literal substrings
`urn:` and `uuid:`, strip surrounding braces, remove hyphens, then require
exactly 32 hexadecimal digits; the result is the 128-bit integer value.
Returns `none` where CPython raises `ValueError`. (The tolerance of
CPython's `int(s, 16)` for underscores and signs inside the digit string is
not modelled.) -/
def pyUUID (s : String) : Option Nat :=
  let h := pyRemove "-" (pyStripBraces (pyRemove "uuid:" (pyRemove "urn:" s.toList)))
  if h.length = 32 && h.all isHexDigitChar then
    some (h.foldl (fun acc c => 16 * acc + hexDigitVal c) 0)
  else
    none

/-- A Python exception escaping one of the operations. -/
inductive PyErr where
  | valueError (msg : String)
  | postgresError (msg : String)
deriving DecidableEq, Repr

/-- Human-readable text of an exception, as interpolated into log lines. -/
def PyErr.describe : PyErr → String
  | .valueError m => m
  | .postgresError m => m

/-- A row of `chat_sessions`. -/
structure Session where
  session_id : Nat
  created_at : Nat
  updated_at : Nat
  user_agent : Option String
  current_page : Option String
  metadata : JObj
deriving DecidableEq, Repr

/-- A row of `chat_messages`. -/
structure Message where
  message_id : Nat
  session_id : Nat
  role : String
  content : String
  created_at : Nat
  token_usage : Int
  page_context : Option String
  metadata : JObj
deriving DecidableEq, Repr

/-- A row of `document_embeddings`. -/
structure EmbeddingRow where
  embedding_id : Nat
  source_type : String
  source_id : String
  content_chunk : String
  embedding : List Rat
  metadata : JObj
deriving DecidableEq, Repr

/-- A row of `user_text_selections`. -/
structure Selection where
  selection_id : Nat
  session_id : Nat
  selected_text : String
  page_url : String
  embedding : Option (List Rat)
  created_at : Nat
  metadata : JObj
deriving DecidableEq, Repr

/-- The visible state of the store: the four tables plus the identifier
generator. -/
structure DbState where
  sessions : List Session
  messages : List Message
  embeddings : List EmbeddingRow
  selections : List Selection
  next_id : Nat
deriving DecidableEq, Repr

/-- The declared dimension of the `vector(384)` columns. -/
def VECTOR_DIM : Nat := 384

/-- The `ValueError` raised by `uuid.UUID` on a malformed string. -/
def badUUIDError : PyErr := PyErr.valueError "badly formed hexadecimal UUID string"

/-! ### Session operations (`operations.py`) -/

/-- `get_chat_session`: point lookup of a session by its UUID string.
`UUID(session_id)` is evaluated before the `SELECT` executes, so a malformed
identifier raises before any SQL; an absent row yields `None`, not an error. -/
def get_chat_session (st : DbState) (session_id : String) :
    Except PyErr (Option Session) × DbState :=
  match pyUUID session_id with
  | none => (.error badUUIDError, st)
  | some uid => (.ok (st.sessions.find? (fun r => r.session_id == uid)), st)

/-- The row transformation of one matched `chat_sessions` row under
`update_chat_session`: `current_page = $n` when a page is supplied,
`metadata = metadata || $m::jsonb` when a metadata object is supplied. -/
def applySessionUpdate (current_page : Option String) (metadata : Option JObj)
    (r : Session) : Session :=
  let r1 := match current_page with
    | some cp => { r with current_page := some cp }
    | none => r
  match metadata with
  | some m => { r1 with metadata := jsonbConcat r1.metadata m }
  | none => r1

/-- `update_chat_session`: parses the UUID first (so a malformed identifier
raises even on the no-op path), returns `False` touching nothing when neither
field is supplied, and otherwise runs a single dynamically assembled `UPDATE`
whose `RETURNING session_id` makes the result `True` exactly when a row
matched. -/
def update_chat_session (st : DbState) (session_id : String)
    (current_page : Option String) (metadata : Option JObj) :
    Except PyErr Bool × DbState :=
  match pyUUID session_id with
  | none => (.error badUUIDError, st)
  | some uid =>
    if current_page.isNone ∧ metadata.isNone then
      (.ok false, st)
    else
      let matched := st.sessions.any (fun r => r.session_id == uid)
      (.ok matched,
       { st with sessions := st.sessions.map (fun r =>
           if r.session_id == uid then applySessionUpdate current_page metadata r else r) })

/-! ### Message operations -/

/-- First statement of `insert_chat_message`: the `INSERT INTO chat_messages`
row built from the arguments, with `created_at` defaulting to `NOW()` and
metadata defaulting to the empty object. -/
def insertMessageRow (st : DbState) (now : Nat) (uid : Nat) (role content : String)
    (token_usage : Int) (page_context : Option String) (metadata : Option JObj) : DbState :=
  let msg : Message :=
    { message_id := st.next_id, session_id := uid, role := role, content := content,
      created_at := now, token_usage := token_usage, page_context := page_context,
      metadata := metadata.getD [] }
  { st with messages := st.messages ++ [msg], next_id := st.next_id + 1 }

/-- Second statement of `insert_chat_message`:
`UPDATE chat_sessions SET updated_at = NOW() WHERE session_id = $1`. -/
def touchSessionUpdatedAt (st : DbState) (now : Nat) (uid : Nat) : DbState :=
  { st with sessions := st.sessions.map (fun r =>
      if r.session_id == uid then { r with updated_at := now } else r) }

/-- `insert_chat_message`: parses the UUID, inserts the message row (the
foreign key on `chat_messages.session_id` rejects an absent session), then as
a second sequential statement bumps the owning session's `updated_at`. -/
def insert_chat_message (st : DbState) (now : Nat) (session_id role content : String)
    (token_usage : Int) (page_context : Option String) (metadata : Option JObj) :
    Except PyErr String × DbState :=
  match pyUUID session_id with
  | none => (.error badUUIDError, st)
  | some uid =>
    if st.sessions.any (fun r => r.session_id == uid) then
      let st1 := insertMessageRow st now uid role content token_usage page_context metadata
      (.ok (toString st.next_id), touchSessionUpdatedAt st1 now uid)
    else
      (.error (PyErr.postgresError "insert or update on table chat_messages violates foreign key constraint"), st)

/-- Comparison used by `ORDER BY created_at ASC` on `chat_messages`. -/
def msgCreatedLE (a b : Message) : Bool := a.created_at ≤ b.created_at

/-- `get_chat_history`: the session's messages ordered by `created_at ASC`,
with SQL `LIMIT $2 OFFSET $3` (skip `offset` rows, then return at most
`limit`). Defaults are `limit = 50`, `offset = 0`. -/
def get_chat_history (st : DbState) (session_id : String) (limit offset : Nat) :
    Except PyErr (List Message) × DbState :=
  match pyUUID session_id with
  | none => (.error badUUIDError, st)
  | some uid =>
    let sorted := (st.messages.filter (fun m => m.session_id == uid)).mergeSort msgCreatedLE
    (.ok ((sorted.drop offset).take limit), st)

/-- `get_chat_history` at its Python default arguments. -/
def get_chat_history_default (st : DbState) (session_id : String) :
    Except PyErr (List Message) × DbState :=
  get_chat_history st session_id 50 0

/-! ### Embedding operations -/

/-- One iteration of the `batch_insert_embeddings` loop: a record to insert,
with metadata defaulting to the empty object when the key is absent. -/
structure EmbRecord where
  source_type : String
  source_id : String
  content_chunk : String
  embedding : List Rat
  metadata : Option JObj
deriving DecidableEq, Repr

/-- The body of the `batch_insert_embeddings` transaction: insert each record
in order, collecting the generated identifiers; the `vector(384)` column
rejects a vector of any other length, aborting the loop. Returns the
identifiers, the table contents and the identifier counter after the loop. -/
def batchLoop (rows : List EmbeddingRow) (next_id : Nat) :
    List EmbRecord → Except PyErr (List String × List EmbeddingRow × Nat)
  | [] => .ok ([], rows, next_id)
  | d :: rest =>
    if d.embedding.length = VECTOR_DIM then
      let row : EmbeddingRow :=
        { embedding_id := next_id, source_type := d.source_type, source_id := d.source_id,
          content_chunk := d.content_chunk, embedding := d.embedding,
          metadata := d.metadata.getD [] }
      match batchLoop (rows ++ [row]) (next_id + 1) rest with
      | .error e => .error e
      | .ok (ids, rows1, n1) => .ok (toString next_id :: ids, rows1, n1)
    else
      .error (PyErr.postgresError "expected 384 dimensions")

/-- `batch_insert_embeddings`: all inserts run inside `conn.transaction()`;
when every insert succeeds the generated identifiers are returned in input
order, and when any insert fails the transaction rolls back, leaving the
table as it was, and the error propagates. -/
def batch_insert_embeddings (st : DbState) (ds : List EmbRecord) :
    Except PyErr (List String) × DbState :=
  match batchLoop st.embeddings st.next_id ds with
  | .error e => (.error e, st)
  | .ok (ids, rows, n) =>
    (.ok ids, { st with embeddings := rows, next_id := n })

/-- The rows `search_similar_embeddings` ranks: restricted to a source type
when the Python-truthy filter applies (`if source_type:`, so `None` and the
empty string both mean no filter). -/
def searchCandidates (st : DbState) (source_type : Option String) : List EmbeddingRow :=
  match source_type with
  | some t => if t == "" then st.embeddings else st.embeddings.filter (fun r => r.source_type == t)
  | none => st.embeddings

/-- The `ORDER BY embedding <=> $1` comparison between two scored rows:
ascending distance to the query. -/
def distLE (dist : List Rat → List Rat → Rat) (query_embedding : List Rat)
    (a b : EmbeddingRow × Rat) : Bool :=
  dist a.1.embedding query_embedding ≤ dist b.1.embedding query_embedding

/-- The candidate rows ordered by `ORDER BY embedding <=> $1` (ascending
distance to the query), each paired with its selected
`1 - (embedding <=> $1) as similarity` column. -/
def searchRanked (dist : List Rat → List Rat → Rat) (st : DbState)
    (query_embedding : List Rat) (source_type : Option String) :
    List (EmbeddingRow × Rat) :=
  ((searchCandidates st source_type).map
      (fun r => (r, 1 - dist r.embedding query_embedding))).mergeSort
    (distLE dist query_embedding)

/-- `search_similar_embeddings`: fetch the `LIMIT limit` page of the ranked
rows, then keep the rows of that page whose similarity is at least the
threshold (the Python-side list comprehension). The distance operator `<=>`
is the engine's and is passed in as `dist`. -/
def search_similar_embeddings (dist : List Rat → List Rat → Rat) (st : DbState)
    (query_embedding : List Rat) (source_type : Option String)
    (limit : Nat) (similarity_threshold : Rat) :
    Except PyErr (List (EmbeddingRow × Rat)) × DbState :=
  (.ok (((searchRanked dist st query_embedding source_type).take limit).filter
      (fun p => similarity_threshold ≤ p.2)), st)

/-- `delete_embeddings_by_source`: one `DELETE` by `(source_type, source_id)`;
the returned count is parsed from the command tag, i.e. the number of rows
that matched. -/
def delete_embeddings_by_source (st : DbState) (source_type source_id : String) :
    Except PyErr Nat × DbState :=
  let hit : EmbeddingRow → Bool := fun r =>
    r.source_type == source_type && r.source_id == source_id
  (.ok (st.embeddings.filter hit).length,
   { st with embeddings := st.embeddings.filter (fun r => !(hit r)) })

/-! ### Text selection operations -/

/-- `insert_text_selection`: parses the UUID, then inserts one
`user_text_selections` row (the foreign key rejects an absent session). -/
def insert_text_selection (st : DbState) (now : Nat) (session_id selected_text page_url : String)
    (embedding : Option (List Rat)) (metadata : Option JObj) :
    Except PyErr String × DbState :=
  match pyUUID session_id with
  | none => (.error badUUIDError, st)
  | some uid =>
    if st.sessions.any (fun r => r.session_id == uid) then
      let sel : Selection :=
        { selection_id := st.next_id, session_id := uid, selected_text := selected_text,
          page_url := page_url, embedding := embedding, created_at := now,
          metadata := metadata.getD [] }
      (.ok (toString st.next_id),
       { st with selections := st.selections ++ [sel], next_id := st.next_id + 1 })
    else
      (.error (PyErr.postgresError "insert or update on table user_text_selections violates foreign key constraint"), st)

/-- `get_session_selections`: the session's selections ordered by
`created_at DESC`, truncated to `limit` rows (default 10). -/
def get_session_selections (st : DbState) (session_id : String) (limit : Nat) :
    Except PyErr (List Selection) × DbState :=
  match pyUUID session_id with
  | none => (.error badUUIDError, st)
  | some uid =>
    let sorted := (st.selections.filter (fun s => s.session_id == uid)).mergeSort
      (fun a b => b.created_at ≤ a.created_at)
    (.ok (sorted.take limit), st)

/-! ### Connection pool lifecycle (`connection.py`) -/

/-- An `asyncpg` pool as created by `get_database_pool`: the `id` field stands
for object identity, the remaining fields record the creation arguments. -/
structure Pool where
  id : Nat
  dsn : String
  min_size : Nat
  max_size : Nat
  command_timeout : Nat
  timeout : Nat
deriving DecidableEq, Repr

/-- The module-level mutable state of `connection.py`: the `_pool` global,
plus a counter modelling allocation of fresh pool objects. -/
structure PoolState where
  pool : Option Pool
  next_pool : Nat
deriving DecidableEq, Repr

/-- A line emitted through a module logger. -/
inductive LogEvent where
  | debug (msg : String)
  | info (msg : String)
  | error (msg : String)
deriving DecidableEq, Repr

/-- `get_database_pool`, with its logger output: returns `_pool` if already
created; otherwise reads `DATABASE_URL` and raises the configuration
`ValueError` — logging nothing, `_pool` untouched — when the variable is
absent or an empty string (Python `if not database_url:` truthiness);
otherwise creates the pool with bounds 2/10 and timeouts 60/30, logging
success. `connect` is the outcome of `asyncpg.create_pool`: a failure is
logged and the same exception re-raised, with `_pool` still unset. -/
def get_database_pool (env : Option String) (connect : Except PyErr Unit)
    (s : PoolState) : List LogEvent × (Except PyErr Pool × PoolState) :=
  match s.pool with
  | some p => ([], (.ok p, s))
  | none =>
    match env with
    | none =>
      ([], (.error (PyErr.valueError "DATABASE_URL environment variable is not set"), s))
    | some url =>
      if url == "" then
        ([], (.error (PyErr.valueError "DATABASE_URL environment variable is not set"), s))
      else
        match connect with
        | .ok _ =>
          let p : Pool :=
            { id := s.next_pool, dsn := url, min_size := 2, max_size := 10,
              command_timeout := 60, timeout := 30 }
          ([.info "Database connection pool created successfully"],
           (.ok p, { pool := some p, next_pool := s.next_pool + 1 }))
        | .error e =>
          ([.error ("Failed to create database connection pool: " ++ e.describe)],
           (.error e, s))

/-- `close_database_pool`: closes the pool when one exists and resets `_pool`
to `None`; a no-op otherwise. -/
def close_database_pool (s : PoolState) : PoolState :=
  match s.pool with
  | some _ => { pool := none, next_pool := s.next_pool }
  | none => s

/-- `get_db` (the FastAPI dependency): acquires a pooled connection and
yields it (modelled as a `Nat` handle); the function has no `try`/`except`,
so any failure propagates to the caller unchanged and nothing is logged. -/
def get_db (acquire : Except PyErr Nat) : List LogEvent × Except PyErr Nat :=
  ([], acquire)

/-- `get_database_version`: runs `SELECT version()` and returns the value;
the function has no `try`/`except`, so any failure propagates to the caller
unchanged and nothing is logged. -/
def get_database_version (fetch : Except PyErr String) :
    List LogEvent × Except PyErr String :=
  ([], fetch)

/-- `enable_pgvector_extension`: executes `CREATE EXTENSION IF NOT EXISTS
vector;` and returns `True`, logging success; a failure is logged and the
same exception re-raised. -/
def enable_pgvector_extension (inner : Except PyErr Unit) :
    List LogEvent × Except PyErr Bool :=
  match inner with
  | .ok _ => ([.info "pgvector extension enabled successfully"], .ok true)
  | .error e =>
    ([.error ("Failed to enable pgvector extension: " ++ e.describe)], .error e)

/-! ### Error reporting (`connection.py`, `operations.py`, `verify_database.py`) -/

/-- The error behaviour of `create_chat_session`, instrumented with its log
output: `inner` is the outcome of the underlying `INSERT ... RETURNING
session_id` call. On success the new identifier is logged and returned; on
failure the context is logged and the same exception re-raised. -/
def create_chat_session (inner : Except PyErr Nat) : List LogEvent × Except PyErr String :=
  match inner with
  | .ok sid => ([.info ("Created chat session: " ++ toString sid)], .ok (toString sid))
  | .error e => ([.error ("Error creating chat session: " ++ e.describe)], .error e)

/-- The logging/error behaviour of `get_chat_session`: no success log; a
failure is logged with the identifier in the context and the same exception
re-raised. -/
def get_chat_session_logged (session_id : String)
    (inner : Except PyErr (Option Session)) :
    List LogEvent × Except PyErr (Option Session) :=
  match inner with
  | .ok r => ([], .ok r)
  | .error e =>
    ([.error ("Error getting chat session " ++ session_id ++ ": " ++ e.describe)],
     .error e)

/-- The logging/error behaviour of `update_chat_session`: no success log; a
failure is logged with the identifier in the context and re-raised. -/
def update_chat_session_logged (session_id : String) (inner : Except PyErr Bool) :
    List LogEvent × Except PyErr Bool :=
  match inner with
  | .ok b => ([], .ok b)
  | .error e =>
    ([.error ("Error updating chat session " ++ session_id ++ ": " ++ e.describe)],
     .error e)

/-- The logging/error behaviour of `insert_chat_message`: success logs the
new identifier at debug level; a failure is logged and re-raised. -/
def insert_chat_message_logged (session_id : String) (inner : Except PyErr Nat) :
    List LogEvent × Except PyErr String :=
  match inner with
  | .ok mid =>
    ([.debug ("Inserted chat message " ++ toString mid ++ " for session " ++ session_id)],
     .ok (toString mid))
  | .error e =>
    ([.error ("Error inserting chat message: " ++ e.describe)], .error e)

/-- The logging/error behaviour of `get_chat_history`: no success log; a
failure is logged with the identifier in the context and re-raised. -/
def get_chat_history_logged (session_id : String)
    (inner : Except PyErr (List Message)) :
    List LogEvent × Except PyErr (List Message) :=
  match inner with
  | .ok rows => ([], .ok rows)
  | .error e =>
    ([.error ("Error getting chat history for session " ++ session_id ++ ": " ++
        e.describe)],
     .error e)

/-- The logging/error behaviour of `insert_embedding`: success logs the new
identifier and source at debug level; a failure is logged and re-raised. -/
def insert_embedding_logged (source_type source_id : String)
    (inner : Except PyErr Nat) : List LogEvent × Except PyErr String :=
  match inner with
  | .ok eid =>
    ([.debug ("Inserted embedding " ++ toString eid ++ " for " ++ source_type ++
        "/" ++ source_id)],
     .ok (toString eid))
  | .error e =>
    ([.error ("Error inserting embedding: " ++ e.describe)], .error e)

/-- The logging/error behaviour of `batch_insert_embeddings`: success logs
the batch size; a failure is logged and re-raised. -/
def batch_insert_embeddings_logged (inner : Except PyErr (List String)) :
    List LogEvent × Except PyErr (List String) :=
  match inner with
  | .ok ids =>
    ([.info ("Batch inserted " ++ toString ids.length ++ " embeddings")], .ok ids)
  | .error e =>
    ([.error ("Error batch inserting embeddings: " ++ e.describe)], .error e)

/-- The logging/error behaviour of `search_similar_embeddings`: success logs
the result count at debug level; a failure is logged and re-raised. -/
def search_similar_embeddings_logged
    (inner : Except PyErr (List (EmbeddingRow × Rat))) :
    List LogEvent × Except PyErr (List (EmbeddingRow × Rat)) :=
  match inner with
  | .ok res =>
    ([.debug ("Found " ++ toString res.length ++ " similar embeddings")], .ok res)
  | .error e =>
    ([.error ("Error searching similar embeddings: " ++ e.describe)], .error e)

/-- The logging/error behaviour of `delete_embeddings_by_source`: success
logs the count and source; a failure is logged and re-raised. -/
def delete_embeddings_by_source_logged (source_type source_id : String)
    (inner : Except PyErr Nat) : List LogEvent × Except PyErr Nat :=
  match inner with
  | .ok n =>
    ([.info ("Deleted " ++ toString n ++ " embeddings for " ++ source_type ++
        "/" ++ source_id)],
     .ok n)
  | .error e =>
    ([.error ("Error deleting embeddings: " ++ e.describe)], .error e)

/-- The logging/error behaviour of `insert_text_selection`: success logs the
new identifier at debug level; a failure is logged and re-raised. -/
def insert_text_selection_logged (inner : Except PyErr Nat) :
    List LogEvent × Except PyErr String :=
  match inner with
  | .ok sid =>
    ([.debug ("Inserted text selection " ++ toString sid)], .ok (toString sid))
  | .error e =>
    ([.error ("Error inserting text selection: " ++ e.describe)], .error e)

/-- The logging/error behaviour of `get_session_selections`: no success log;
a failure is logged with the identifier in the context and re-raised. -/
def get_session_selections_logged (session_id : String)
    (inner : Except PyErr (List Selection)) :
    List LogEvent × Except PyErr (List Selection) :=
  match inner with
  | .ok rows => ([], .ok rows)
  | .error e =>
    ([.error ("Error getting text selections for session " ++ session_id ++ ": " ++
        e.describe)],
     .error e)

/-- `test_database_connection` in `connection.py`, instrumented with its log
output: `fetch_one` is the outcome of acquiring a connection and running
`SELECT 1`. Any exception is caught, logged, and converted into a `False`
return value — the function returns normally rather than re-raising. -/
def test_database_connection (fetch_one : Except PyErr Int) :
    List LogEvent × Except PyErr Bool :=
  match fetch_one with
  | .ok r =>
    if r = 1 then ([.info "Database connection test successful"], .ok true)
    else ([.error "Database connection test failed"], .ok false)
  | .error e =>
    ([.error ("Database connection test error: " ++ e.describe)], .ok false)

/-- The schema facts `verify_database.py` checks before printing its final
verdict. -/
structure VerifyChecks where
  all_tables_exist : Bool
  ext : Bool
  vector_idx : Bool
deriving DecidableEq, Repr

/-- `verify_database` (the diagnostic script), abstracted to its final report
line and process exit status: a missing or empty `DATABASE_URL` (Python
`if not database_url:` truthiness) or any raised database error becomes a
printed failure line and exit status 1; otherwise the summary decides
between exit 0 (configured) and exit 1 (needs configuration). -/
def verify_database (database_url : Option String) (run : Except PyErr VerifyChecks) :
    List String × Nat :=
  match database_url with
  | none => (["DATABASE_URL not set in .env file"], 1)
  | some url =>
    if url == "" then
      (["DATABASE_URL not set in .env file"], 1)
    else
      match run with
      | .error e => (["Error: " ++ e.describe], 1)
      | .ok c =>
        if c.all_tables_exist && c.ext && c.vector_idx then
          (["Database is properly configured!"], 0)
        else
          (["Database needs configuration"], 1)

/-! ## Claims -/

/-- An empty store, used to instantiate theorems at concrete inputs. -/
def emptyDb : DbState :=
  { sessions := [], messages := [], embeddings := [], selections := [], next_id := 0 }

/-- C7 (confirmed): for every well-formed session identifier,
`get_chat_session` is a read-only point lookup: it returns a session row
exactly when one with that identifier exists, and an absent result (`none`),
never an error, when no such row exists. -/
theorem c7_get_session_point_lookup (st : DbState) (sid : String) (uid : Nat)
    (h : pyUUID sid = some uid) :
    (get_chat_session st sid).2 = st ∧
    ((∀ r ∈ st.sessions, r.session_id ≠ uid) → (get_chat_session st sid).1 = .ok none) ∧
    ((∃ r ∈ st.sessions, r.session_id = uid) →
      ∃ r0, (get_chat_session st sid).1 = .ok (some r0) ∧ r0 ∈ st.sessions ∧
        r0.session_id = uid) := by
  simp only [get_chat_session, h]
  refine ⟨trivial, ?_, ?_⟩
  · intro habs
    simp only [Except.ok.injEq]
    rw [List.find?_eq_none]
    intro x hx
    simpa using habs x hx
  · rintro ⟨r, hr, hid⟩
    cases hfind : st.sessions.find? (fun r => r.session_id == uid) with
    | none =>
      rw [List.find?_eq_none] at hfind
      exact absurd (by simpa using hid) (hfind r hr)
    | some r0 =>
      exact ⟨r0, rfl, List.mem_of_find?_eq_some hfind,
        by simpa using List.find?_some hfind⟩

/-- A sample session row with identifier 1, used to instantiate theorems. -/
def demoSession : Session :=
  { session_id := 1, created_at := 0, updated_at := 0,
    user_agent := none, current_page := none, metadata := [] }

/-- A store holding just `demoSession`. -/
def oneSessionDb : DbState := { emptyDb with sessions := [demoSession] }

/-- The UUID string of `demoSession`. -/
def demoSid : String := "00000000-0000-0000-0000-000000000001"

/-- C7 witness: on an empty store, looking up a syntactically valid but absent
identifier returns an absent result, and the lookup leaves the store
untouched. -/
theorem c7_witness :
    (get_chat_session oneSessionDb demoSid).2 = oneSessionDb ∧
    (get_chat_session emptyDb demoSid).1 = .ok none :=
  ⟨(c7_get_session_point_lookup oneSessionDb demoSid 1 (by decide)).1,
   (c7_get_session_point_lookup emptyDb demoSid 1 (by decide)).2.1 (by intro r hr; cases hr)⟩

/-- C8 (confirmed): `delete_embeddings_by_source` returns the number of rows
matching the `(source_type, source_id)` pair that existed immediately before
the call, removes exactly those rows (keeping every non-matching row, and
touching no other table), and a second consecutive call with the same
arguments returns zero. -/
theorem c8_delete_embeddings_by_source (st : DbState) (ty sid : String) :
    (delete_embeddings_by_source st ty sid).1 =
      .ok (st.embeddings.filter
        (fun r => r.source_type == ty && r.source_id == sid)).length ∧
    (∀ r ∈ (delete_embeddings_by_source st ty sid).2.embeddings,
      ¬ (r.source_type = ty ∧ r.source_id = sid)) ∧
    (∀ r ∈ st.embeddings, ¬ (r.source_type = ty ∧ r.source_id = sid) →
      r ∈ (delete_embeddings_by_source st ty sid).2.embeddings) ∧
    (delete_embeddings_by_source (delete_embeddings_by_source st ty sid).2 ty sid).1 =
      .ok 0 ∧
    (delete_embeddings_by_source st ty sid).2.sessions = st.sessions ∧
    (delete_embeddings_by_source st ty sid).2.messages = st.messages ∧
    (delete_embeddings_by_source st ty sid).2.selections = st.selections := by
  refine ⟨rfl, ?_, ?_, ?_, rfl, rfl, rfl⟩
  · intro r hr
    simp only [delete_embeddings_by_source, List.mem_filter, Bool.not_eq_true',
      Bool.and_eq_false_iff, beq_eq_false_iff_ne] at hr
    rintro ⟨h1, h2⟩
    rcases hr.2 with h | h <;> exact h (by simp [h1, h2])
  · intro r hr hne
    simp only [delete_embeddings_by_source, List.mem_filter]
    refine ⟨hr, ?_⟩
    simp only [Bool.not_eq_true', Bool.and_eq_false_iff, beq_eq_false_iff_ne]
    by_cases h1 : r.source_type = ty
    · exact Or.inr (fun h2 => hne ⟨h1, h2⟩)
    · exact Or.inl h1
  · simp only [delete_embeddings_by_source, List.filter_filter, Except.ok.injEq]
    rw [List.length_eq_zero, List.filter_eq_nil_iff]
    intro a _
    cases h : a.source_type == ty && a.source_id == sid <;> simp [h]

/-- C10 (confirmed): for every string the UUID parser rejects, each
session-keyed operation raises the parser's `ValueError` before executing any
SQL — the store is returned unchanged — and the failure is never reported as
an absent result, a `False`, or an empty list (the first component is
`.error`, never `.ok`). -/
theorem c10_malformed_uuid_raises (st : DbState) (s : String)
    (h : pyUUID s = none) (now : Nat) (cp pc : Option String) (md : Option JObj)
    (emb : Option (List Rat)) (role content selected_text page_url : String)
    (tu : Int) (limit offset : Nat) :
    badUUIDError = PyErr.valueError "badly formed hexadecimal UUID string" ∧
    get_chat_session st s = (.error badUUIDError, st) ∧
    update_chat_session st s cp md = (.error badUUIDError, st) ∧
    insert_chat_message st now s role content tu pc md = (.error badUUIDError, st) ∧
    get_chat_history st s limit offset = (.error badUUIDError, st) ∧
    insert_text_selection st now s selected_text page_url emb md =
      (.error badUUIDError, st) ∧
    get_session_selections st s limit = (.error badUUIDError, st) := by
  refine ⟨rfl, ?_, ?_, ?_, ?_, ?_, ?_⟩ <;>
    simp only [get_chat_session, update_chat_session, insert_chat_message,
      get_chat_history, insert_text_selection, get_session_selections, h]

/-- C10 witness: the string `not-a-uuid` is rejected by the parser, and each
of the six operations maps it to the `ValueError`, leaving an empty store
unchanged. -/
theorem c10_witness :
    pyUUID "not-a-uuid" = none ∧
    get_chat_session emptyDb "not-a-uuid" = (.error badUUIDError, emptyDb) ∧
    get_chat_history emptyDb "not-a-uuid" 50 0 = (.error badUUIDError, emptyDb) :=
  ⟨by decide,
   (c10_malformed_uuid_raises emptyDb "not-a-uuid" (by decide) 0 none none none none
      "user" "hello" "sel" "url" 0 50 0).2.1,
   (c10_malformed_uuid_raises emptyDb "not-a-uuid" (by decide) 0 none none none none
      "user" "hello" "sel" "url" 0 50 0).2.2.2.2.1⟩

/-- C4 (confirmed): `get_database_pool` creates the pool on first call from
the configured connection string (with the pool bounds and timeouts of the
source), every later call returns that same pool object with the state
untouched, `close_database_pool` resets the stored state so a later call
creates a fresh pool, and a first call with the connection-string
environment variable absent — or set to the empty string, which Python's
`if not database_url:` treats the same way — fails with the configuration
`ValueError` without creating any pool. -/
theorem c4_pool_lifecycle (s : PoolState) (url : String) (c : Except PyErr Unit) :
    (s.pool = none → url ≠ "" →
      ∃ p, (get_database_pool (some url) (.ok ()) s).2 =
          (.ok p, { pool := some p, next_pool := s.next_pool + 1 }) ∧
        p.dsn = url ∧ p.min_size = 2 ∧ p.max_size = 10 ∧
        p.command_timeout = 60 ∧ p.timeout = 30) ∧
    (∀ p, s.pool = some p → ∀ env, (get_database_pool env c s).2 = (.ok p, s)) ∧
    ((close_database_pool s).pool = none) ∧
    (url ≠ "" →
      ∃ p, (get_database_pool (some url) (.ok ()) (close_database_pool s)).2 =
        (.ok p, { pool := some p, next_pool := s.next_pool + 1 }) ∧ p.dsn = url) ∧
    (s.pool = none →
      (get_database_pool none c s).2 =
        (.error (PyErr.valueError "DATABASE_URL environment variable is not set"),
          s) ∧
      (get_database_pool (some "") c s).2 =
        (.error (PyErr.valueError "DATABASE_URL environment variable is not set"),
          s)) := by
  refine ⟨?_, ?_, ?_, ?_, ?_⟩
  · intro h hne
    exact ⟨{ id := s.next_pool, dsn := url, min_size := 2, max_size := 10,
             command_timeout := 60, timeout := 30 },
           by simp [get_database_pool, h, hne], rfl, rfl, rfl, rfl, rfl⟩
  · intro p hp env
    simp [get_database_pool, hp]
  · cases h : s.pool <;> simp [close_database_pool, h]
  · intro hne
    refine ⟨{ id := s.next_pool, dsn := url, min_size := 2, max_size := 10,
              command_timeout := 60, timeout := 30 }, ?_, rfl⟩
    cases h : s.pool <;> simp [get_database_pool, close_database_pool, h, hne]
  · intro h
    exact ⟨by simp [get_database_pool, h], by simp [get_database_pool, h]⟩

/-- C4 witness: starting from the initial module state (no pool yet), the
first call creates pool 0 with the configured string; a first call with
`DATABASE_URL` unset, or set to the empty string, raises the configuration
error leaving the state untouched. -/
theorem c4_witness :
    (∃ p, (get_database_pool (some "postgres-dsn") (.ok ())
          { pool := none, next_pool := 0 }).2 =
        (.ok p, { pool := some p, next_pool := 1 }) ∧
      p.dsn = "postgres-dsn" ∧ p.min_size = 2 ∧ p.max_size = 10 ∧
      p.command_timeout = 60 ∧ p.timeout = 30) ∧
    (get_database_pool none (.ok ()) { pool := none, next_pool := 0 }).2 =
      (.error (PyErr.valueError "DATABASE_URL environment variable is not set"),
        { pool := none, next_pool := 0 }) ∧
    (get_database_pool (some "") (.ok ()) { pool := none, next_pool := 0 }).2 =
      (.error (PyErr.valueError "DATABASE_URL environment variable is not set"),
        { pool := none, next_pool := 0 }) :=
  ⟨(c4_pool_lifecycle { pool := none, next_pool := 0 } "postgres-dsn" (.ok ())).1
      rfl (by decide),
   ((c4_pool_lifecycle { pool := none, next_pool := 0 } "postgres-dsn"
      (.ok ())).2.2.2.2 rfl).1,
   ((c4_pool_lifecycle { pool := none, next_pool := 0 } "postgres-dsn"
      (.ok ())).2.2.2.2 rfl).2⟩

/-- C9 counterexample: `test_database_connection` is an access-layer function
of `connection.py` (it returns a boolean to its caller, prints no report and
sets no process exit status), yet when the underlying call fails it does not
re-raise: the error is logged and converted into a normal `.ok false` return,
so the claim that every non-script operation propagates its errors unchanged
is false at this concrete input. -/
theorem c9_counterexample :
    (test_database_connection (.error (PyErr.postgresError "connection refused"))).2 =
      .ok false ∧
    (test_database_connection (.error (PyErr.postgresError "connection refused"))).2 ≠
      .error (PyErr.postgresError "connection refused") := by
  exact ⟨rfl, by simp [test_database_connection]⟩

/-- C9 (corrected): every function of the operations layer
(`operations.py`) logs the failure context and re-raises the error
unchanged. In `connection.py`, `enable_pgvector_extension` does the same;
`get_database_pool` logs and re-raises a pool-creation failure but raises
its missing/empty-`DATABASE_URL` configuration `ValueError` without
logging; `test_database_connection` logs the failure and returns `False`
instead of re-raising; and `get_db` and `get_database_version` have no
handler, so their failures propagate unchanged but unlogged. The diagnostic
script `verify_database` converts any failure into a printed failure report
and process exit status 1. -/
theorem c9_amended_error_reporting (e : PyErr)
    (url session_id source_type source_id : String) (s : PoolState)
    (c : Except PyErr Unit) :
    create_chat_session (.error e) =
      ([.error ("Error creating chat session: " ++ e.describe)], .error e) ∧
    get_chat_session_logged session_id (.error e) =
      ([.error ("Error getting chat session " ++ session_id ++ ": " ++ e.describe)],
       .error e) ∧
    update_chat_session_logged session_id (.error e) =
      ([.error ("Error updating chat session " ++ session_id ++ ": " ++ e.describe)],
       .error e) ∧
    insert_chat_message_logged session_id (.error e) =
      ([.error ("Error inserting chat message: " ++ e.describe)], .error e) ∧
    get_chat_history_logged session_id (.error e) =
      ([.error ("Error getting chat history for session " ++ session_id ++ ": " ++
          e.describe)],
       .error e) ∧
    insert_embedding_logged source_type source_id (.error e) =
      ([.error ("Error inserting embedding: " ++ e.describe)], .error e) ∧
    batch_insert_embeddings_logged (.error e) =
      ([.error ("Error batch inserting embeddings: " ++ e.describe)], .error e) ∧
    search_similar_embeddings_logged (.error e) =
      ([.error ("Error searching similar embeddings: " ++ e.describe)], .error e) ∧
    delete_embeddings_by_source_logged source_type source_id (.error e) =
      ([.error ("Error deleting embeddings: " ++ e.describe)], .error e) ∧
    insert_text_selection_logged (.error e) =
      ([.error ("Error inserting text selection: " ++ e.describe)], .error e) ∧
    get_session_selections_logged session_id (.error e) =
      ([.error ("Error getting text selections for session " ++ session_id ++
          ": " ++ e.describe)],
       .error e) ∧
    enable_pgvector_extension (.error e) =
      ([.error ("Failed to enable pgvector extension: " ++ e.describe)],
       .error e) ∧
    (s.pool = none →
      get_database_pool none c s =
        ([], (.error (PyErr.valueError "DATABASE_URL environment variable is not set"),
          s)) ∧
      get_database_pool (some "") c s =
        ([], (.error (PyErr.valueError "DATABASE_URL environment variable is not set"),
          s))) ∧
    (s.pool = none → url ≠ "" →
      get_database_pool (some url) (.error e) s =
        ([.error ("Failed to create database connection pool: " ++ e.describe)],
         (.error e, s))) ∧
    test_database_connection (.error e) =
      ([.error ("Database connection test error: " ++ e.describe)], .ok false) ∧
    get_db (.error e) = ([], .error e) ∧
    get_database_version (.error e) = ([], .error e) ∧
    (url ≠ "" →
      verify_database (some url) (.error e) = (["Error: " ++ e.describe], 1)) ∧
    verify_database none (.error e) = (["DATABASE_URL not set in .env file"], 1) ∧
    verify_database (some "") (.error e) =
      (["DATABASE_URL not set in .env file"], 1) ∧
    (url ≠ "" → (verify_database (some url) (.error e)).2 ≠ 0) := by
  refine ⟨rfl, rfl, rfl, rfl, rfl, rfl, rfl, rfl, rfl, rfl, rfl, rfl,
    ?_, ?_, rfl, rfl, rfl, ?_, rfl, by simp [verify_database], ?_⟩
  · intro h
    exact ⟨by simp [get_database_pool, h], by simp [get_database_pool, h]⟩
  · intro h hne
    simp [get_database_pool, h, hne]
  · intro hne
    simp [verify_database, hne]
  · intro hne
    simp [verify_database, hne]

/-- When the right operand of the merge holds key `k`, no entry of the
filtered left part does. -/
theorem findFilteredNone (old new : JObj) (k : String)
    (h : new.any (fun q => q.1 == k) = true) :
    (old.filter (fun p => !(new.any (fun q => q.1 == p.1)))).find?
      (fun p => p.1 == k) = none := by
  rw [List.find?_eq_none]
  intro x hx hbeq
  rw [List.mem_filter] at hx
  have hk : x.1 = k := by simpa using hbeq
  have h2 : new.any (fun q => q.1 == x.1) = false := by
    have hx2 := hx.2
    rwa [Bool.not_eq_true'] at hx2
  rw [hk] at h2
  rw [h2] at h
  cases h

/-- When the right operand of the merge lacks key `k`, lookup of `k` in the
filtered left part agrees with lookup in the unfiltered left part. -/
theorem findFilteredEq (old new : JObj) (k : String)
    (h : new.any (fun q => q.1 == k) = false) :
    (old.filter (fun p => !(new.any (fun q => q.1 == p.1)))).find?
      (fun p => p.1 == k) = old.find? (fun p => p.1 == k) := by
  induction old with
  | nil => rfl
  | cons e rest ih =>
    rw [List.filter_cons]
    cases hsurv : (new.any (fun q => q.1 == e.1)) with
    | true =>
      have hne : (e.1 == k) = false := by
        cases hcon : (e.1 == k) with
        | false => rfl
        | true =>
          have hek : e.1 = k := by simpa using hcon
          rw [hek] at hsurv
          rw [hsurv] at h
          cases h
      simp only [hsurv, Bool.not_true, Bool.false_eq_true, if_false,
        List.find?_cons, hne, ih]
    | false =>
      simp only [hsurv, Bool.not_false, if_true, List.find?_cons]
      cases hpk : (e.1 == k) <;> simp [hpk, ih]

/-- Lookup after the jsonb `||` merge: a key present in the right operand
takes its value from there (later wins); any other key keeps the left
operand's value (merge, not replace). -/
theorem jsonbConcat_get (old new : JObj) (k : String) :
    JObj.get (jsonbConcat old new) k = (JObj.get new k).or (JObj.get old k) := by
  unfold JObj.get jsonbConcat
  rw [List.find?_append]
  cases hnew : new.find? (fun p => p.1 == k) with
  | some e =>
    have hpe := List.find?_some hnew
    have hany : new.any (fun q => q.1 == k) = true :=
      List.any_eq_true.mpr ⟨e, List.mem_of_find?_eq_some hnew, hpe⟩
    rw [findFilteredNone old new k hany]
    simp
  | none =>
    have hany : new.any (fun q => q.1 == k) = false := by
      rw [List.any_eq_false]
      intro q hq
      rw [List.find?_eq_none] at hnew
      exact fun hbeq => hnew q hq hbeq
    rw [findFilteredEq old new k hany]
    simp

/-- C3 (confirmed): for a well-formed identifier, `update_chat_session`
touches only the fields it is given — the update of a matched row is exactly
`applySessionUpdate`, which keeps the identifier, both timestamps and the
user agent, replaces `current_page` only when one is supplied, and merges a
supplied metadata object into the existing one (shallow union, later wins)
instead of replacing it; unmatched rows and the other tables are untouched;
the call returns `True` exactly when a row with the identifier matched; and
with neither field supplied it performs no update and returns `False`
regardless of whether the session exists. -/
theorem c3_update_session_partial (st : DbState) (sid : String) (uid : Nat)
    (h : pyUUID sid = some uid) (cp : Option String) (md : Option JObj) :
    update_chat_session st sid none none = (.ok false, st) ∧
    (¬ (cp = none ∧ md = none) →
      ((update_chat_session st sid cp md).1 = .ok true ↔
        ∃ r ∈ st.sessions, r.session_id = uid) ∧
      (update_chat_session st sid cp md).2 =
        { st with
          sessions := st.sessions.map (fun r =>
            if r.session_id == uid then applySessionUpdate cp md r else r) }) ∧
    (∀ r : Session,
      (applySessionUpdate cp md r).session_id = r.session_id ∧
      (applySessionUpdate cp md r).created_at = r.created_at ∧
      (applySessionUpdate cp md r).updated_at = r.updated_at ∧
      (applySessionUpdate cp md r).user_agent = r.user_agent ∧
      (cp = none → (applySessionUpdate cp md r).current_page = r.current_page) ∧
      (∀ c, cp = some c → (applySessionUpdate cp md r).current_page = some c) ∧
      (md = none → (applySessionUpdate cp md r).metadata = r.metadata) ∧
      (∀ m, md = some m → ∀ k,
        JObj.get (applySessionUpdate cp md r).metadata k =
          (JObj.get m k).or (JObj.get r.metadata k))) := by
  refine ⟨?_, ?_, ?_⟩
  · simp [update_chat_session, h]
  · intro hsome
    constructor
    · simp only [update_chat_session, h]
      rw [if_neg (by simpa using hsome)]
      simp only [Except.ok.injEq]
      rw [List.any_eq_true]
      constructor
      · rintro ⟨r, hr, hbeq⟩
        exact ⟨r, hr, by simpa using hbeq⟩
      · rintro ⟨r, hr, hid⟩
        exact ⟨r, hr, by simpa using hid⟩
    · simp only [update_chat_session, h]
      rw [if_neg (by simpa using hsome)]
  · intro r
    cases cp <;> cases md <;>
      simp [applySessionUpdate, jsonbConcat_get]

/-- A session holding metadata with key `a`, as after a first
`update_chat_session` call with only that metadata. -/
def demoSessionA : Session := { demoSession with metadata := [("a", JVal.num 1)] }

/-- C3 witness: with neither field supplied the call is a no-op returning
`False`, and merging metadata with key `b` into a session already holding key
`a` yields metadata containing both keys (merge, not replace). -/
theorem c3_witness :
    update_chat_session oneSessionDb demoSid none none = (.ok false, oneSessionDb) ∧
    JObj.get (applySessionUpdate none (some [("b", JVal.num 2)]) demoSessionA).metadata
      "a" = some (JVal.num 1) ∧
    JObj.get (applySessionUpdate none (some [("b", JVal.num 2)]) demoSessionA).metadata
      "b" = some (JVal.num 2) := by
  have H := c3_update_session_partial oneSessionDb demoSid 1 (by decide) none
    (some [("b", JVal.num 2)])
  refine ⟨H.1, ?_, ?_⟩
  · rw [(H.2.2 demoSessionA).2.2.2.2.2.2.2 [("b", JVal.num 2)] rfl "a"]
    decide
  · rw [(H.2.2 demoSessionA).2.2.2.2.2.2.2 [("b", JVal.num 2)] rfl "b"]
    decide

/-- The identifiers the batch loop generates: `k` consecutive counter values
starting at `n0`, rendered as strings in input order (statement vocabulary
for C2). -/
def genIds (n0 : Nat) : Nat → List String
  | 0 => []
  | k + 1 => toString n0 :: genIds (n0 + 1) k

/-- The rows a fully successful batch insert appends, one per record in input
order, with consecutive generated identifiers (statement vocabulary for C2). -/
def mkEmbeddingRows (n0 : Nat) : List EmbRecord → List EmbeddingRow
  | [] => []
  | d :: rest =>
    { embedding_id := n0, source_type := d.source_type, source_id := d.source_id,
      content_chunk := d.content_chunk, embedding := d.embedding,
      metadata := d.metadata.getD [] } :: mkEmbeddingRows (n0 + 1) rest

/-- When every record has a 384-dimensional vector, the batch loop succeeds
and returns the generated identifiers together with the rows appended in
input order. -/
theorem batchLoop_ok (ds : List EmbRecord) :
    ∀ (rows : List EmbeddingRow) (n : Nat),
    (∀ d ∈ ds, d.embedding.length = VECTOR_DIM) →
    batchLoop rows n ds =
      .ok (genIds n ds.length, rows ++ mkEmbeddingRows n ds, n + ds.length) := by
  induction ds with
  | nil => intro rows n _; simp [batchLoop, genIds, mkEmbeddingRows]
  | cons d rest ih =>
    intro rows n hall
    have hd : d.embedding.length = VECTOR_DIM := hall d (List.mem_cons_self d rest)
    have hrest : ∀ x ∈ rest, x.embedding.length = VECTOR_DIM :=
      fun x hx => hall x (List.mem_cons_of_mem d hx)
    simp only [batchLoop, hd, if_pos rfl]
    rw [ih _ (n + 1) hrest]
    have harith : n + 1 + rest.length = n + (rest.length + 1) := by omega
    rw [harith]
    simp [genIds, mkEmbeddingRows, List.append_assoc]

/-- When some record's vector does not have 384 dimensions, the batch loop
aborts with an error. -/
theorem batchLoop_err (ds : List EmbRecord) :
    ∀ (rows : List EmbeddingRow) (n : Nat),
    (∃ d ∈ ds, d.embedding.length ≠ VECTOR_DIM) →
    ∃ e, batchLoop rows n ds = .error e := by
  induction ds with
  | nil => rintro rows n ⟨d, hd, _⟩; cases hd
  | cons d rest ih =>
    rintro rows n ⟨x, hx, hbad⟩
    by_cases hd : d.embedding.length = VECTOR_DIM
    · rcases List.mem_cons.mp hx with hxd | hxr
      · rw [hxd] at hbad; exact absurd hd hbad
      · obtain ⟨e, he⟩ := ih (rows ++
          [{ embedding_id := n, source_type := d.source_type, source_id := d.source_id,
             content_chunk := d.content_chunk, embedding := d.embedding,
             metadata := d.metadata.getD [] }]) (n + 1) ⟨x, hxr, hbad⟩
        refine ⟨e, ?_⟩
        simp [batchLoop, hd, he]
    · exact ⟨PyErr.postgresError "expected 384 dimensions", by
        simp only [batchLoop, if_neg hd]⟩

/-- `genIds` produces one identifier per requested record. -/
theorem genIds_length (k : Nat) : ∀ n0, (genIds n0 k).length = k := by
  induction k with
  | zero => intro n0; rfl
  | succ k ih => intro n0; simp [genIds, ih]

/-- C2 (confirmed): `batch_insert_embeddings` is all-or-nothing. When every
record is insertable (its vector has the declared 384 dimensions) the call
returns the generated identifiers — one per record, in input order, as the
consecutive counter values — and appends exactly the corresponding rows;
when any record fails, the transaction rolls back and the call returns the
error with the store exactly as it was (zero rows of the batch persisted). -/
theorem c2_batch_insert_all_or_nothing (st : DbState) (ds : List EmbRecord) :
    ((∀ d ∈ ds, d.embedding.length = VECTOR_DIM) →
      batch_insert_embeddings st ds =
        (.ok (genIds st.next_id ds.length),
         { st with
           embeddings := st.embeddings ++ mkEmbeddingRows st.next_id ds,
           next_id := st.next_id + ds.length }) ∧
      (genIds st.next_id ds.length).length = ds.length) ∧
    ((∃ d ∈ ds, d.embedding.length ≠ VECTOR_DIM) →
      ∃ e, batch_insert_embeddings st ds = (.error e, st)) := by
  constructor
  · intro hall
    refine ⟨?_, genIds_length ds.length st.next_id⟩
    unfold batch_insert_embeddings
    rw [batchLoop_ok ds st.embeddings st.next_id hall]
  · rintro hbad
    obtain ⟨e, he⟩ := batchLoop_err ds st.embeddings st.next_id hbad
    exact ⟨e, by unfold batch_insert_embeddings; rw [he]⟩

/-- A well-formed embedding record (384-dimensional zero vector). -/
def demoRec : EmbRecord :=
  { source_type := "product", source_id := "p1", content_chunk := "chunk",
    embedding := List.replicate VECTOR_DIM 0, metadata := none }

/-- A malformed embedding record (wrong vector length). -/
def badRec : EmbRecord :=
  { source_type := "product", source_id := "p2", content_chunk := "chunk",
    embedding := [1], metadata := none }

/-- C2 witness: a singleton batch with a 384-dimensional vector succeeds and
persists its row, while a batch containing a one-dimensional vector fails
with the empty store unchanged. -/
theorem c2_witness :
    batch_insert_embeddings emptyDb [demoRec] =
      (.ok (genIds emptyDb.next_id 1),
       { emptyDb with
         embeddings := emptyDb.embeddings ++ mkEmbeddingRows emptyDb.next_id [demoRec],
         next_id := emptyDb.next_id + 1 }) ∧
    (∃ e, batch_insert_embeddings emptyDb [badRec] = (.error e, emptyDb)) :=
  ⟨((c2_batch_insert_all_or_nothing emptyDb [demoRec]).1 (by
      intro d hd
      rw [List.mem_singleton] at hd
      subst hd
      simp [demoRec])).1,
   (c2_batch_insert_all_or_nothing emptyDb [badRec]).2
     ⟨badRec, List.mem_singleton.mpr rfl, by decide⟩⟩

/-- C5 (confirmed): a successful `insert_chat_message` first appends the
message row and then, as the second sequential statement of the same
operation, sets the owning session's `updated_at` to the current time — so
with a clock at or past the stored timestamp, the session's `updated_at`
never decreases — and no other session field (identifier, `created_at`,
user agent, current page, metadata) and no other row is modified. -/
theorem c5_insert_message_touches_session (st : DbState) (now : Nat)
    (sid role content : String) (uid : Nat) (h : pyUUID sid = some uid)
    (tu : Int) (pc : Option String) (md : Option JObj)
    (hex : st.sessions.any (fun r => r.session_id == uid) = true) :
    (insert_chat_message st now sid role content tu pc md).1 =
      .ok (toString st.next_id) ∧
    (insert_chat_message st now sid role content tu pc md).2 =
      touchSessionUpdatedAt
        (insertMessageRow st now uid role content tu pc md) now uid ∧
    (insert_chat_message st now sid role content tu pc md).2.messages =
      st.messages ++
        [{ message_id := st.next_id, session_id := uid, role := role,
           content := content, created_at := now, token_usage := tu,
           page_context := pc, metadata := md.getD [] }] ∧
    (insert_chat_message st now sid role content tu pc md).2.sessions =
      st.sessions.map (fun r =>
        if r.session_id == uid then { r with updated_at := now } else r) ∧
    (∀ r ∈ st.sessions,
      ((if r.session_id == uid then { r with updated_at := now } else r) :
          Session).session_id = r.session_id ∧
      ((if r.session_id == uid then { r with updated_at := now } else r) :
          Session).created_at = r.created_at ∧
      ((if r.session_id == uid then { r with updated_at := now } else r) :
          Session).user_agent = r.user_agent ∧
      ((if r.session_id == uid then { r with updated_at := now } else r) :
          Session).current_page = r.current_page ∧
      ((if r.session_id == uid then { r with updated_at := now } else r) :
          Session).metadata = r.metadata ∧
      (r.updated_at ≤ now →
        r.updated_at ≤ ((if r.session_id == uid then { r with updated_at := now }
          else r) : Session).updated_at) ∧
      (r.session_id = uid →
        ((if r.session_id == uid then { r with updated_at := now } else r) :
          Session).updated_at = now)) ∧
    (insert_chat_message st now sid role content tu pc md).2.embeddings =
      st.embeddings ∧
    (insert_chat_message st now sid role content tu pc md).2.selections =
      st.selections := by
  refine ⟨?_, ?_, ?_, ?_, ?_, ?_, ?_⟩
  case refine_5 =>
    intro r hr
    cases hru : (r.session_id == uid) with
    | false =>
      refine ⟨by simp [hru], by simp [hru], by simp [hru], by simp [hru],
        by simp [hru], fun _ => by simp [hru], fun heq => ?_⟩
      rw [heq] at hru
      simp at hru
    | true => simp [hru]
  all_goals
    simp [insert_chat_message, h, hex, insertMessageRow, touchSessionUpdatedAt]

/-- C5 witness: inserting a message at time 5 for the demo session succeeds,
and the final state is the sequential composition of the message insert
followed by the `updated_at` touch. -/
theorem c5_witness :
    (insert_chat_message oneSessionDb 5 demoSid "user" "hi" 0 none none).1 =
      .ok (toString oneSessionDb.next_id) ∧
    (insert_chat_message oneSessionDb 5 demoSid "user" "hi" 0 none none).2 =
      touchSessionUpdatedAt
        (insertMessageRow oneSessionDb 5 1 "user" "hi" 0 none none) 5 1 :=
  ⟨(c5_insert_message_touches_session oneSessionDb 5 demoSid "user" "hi" 1
      (by decide) 0 none none (by decide)).1,
   (c5_insert_message_touches_session oneSessionDb 5 demoSid "user" "hi" 1
      (by decide) 0 none none (by decide)).2.1⟩

/-- The history comparison is transitive. -/
theorem msgCreatedLE_trans (a b c : Message) :
    msgCreatedLE a b → msgCreatedLE b c → msgCreatedLE a c := by
  simp only [msgCreatedLE, decide_eq_true_eq]
  omega

/-- The history comparison is total. -/
theorem msgCreatedLE_total (a b : Message) :
    msgCreatedLE a b || msgCreatedLE b a := by
  simp only [msgCreatedLE]
  by_cases hab : a.created_at ≤ b.created_at
  · simp [hab]
  · simp [hab]
    omega

/-- C6 (confirmed): for a well-formed identifier, `get_chat_history` is
read-only and returns the page of the session's messages sorted ascending by
creation time, skipping `offset` rows and keeping at most `limit` (the
Python defaults being 50 and 0): the page is non-decreasing in `created_at`,
has length at most `limit`, contains only the session's messages, and with
`offset = 0` and a limit at least the session's message count it is a
permutation of exactly those messages. -/
theorem c6_get_history_page (st : DbState) (sid : String) (uid : Nat)
    (h : pyUUID sid = some uid) (limit offset : Nat) :
    get_chat_history_default st sid = get_chat_history st sid 50 0 ∧
    (get_chat_history st sid limit offset).2 = st ∧
    (get_chat_history st sid limit offset).1 =
      .ok ((((st.messages.filter (fun m => m.session_id == uid)).mergeSort
        msgCreatedLE).drop offset).take limit) ∧
    (∀ res, (get_chat_history st sid limit offset).1 = .ok res →
      res.length ≤ limit ∧
      res.Pairwise (fun a b => a.created_at ≤ b.created_at) ∧
      (∀ m ∈ res, m ∈ st.messages ∧ m.session_id = uid) ∧
      (offset = 0 →
        (st.messages.filter (fun m => m.session_id == uid)).length ≤ limit →
        res.Perm (st.messages.filter (fun m => m.session_id == uid)))) := by
  refine ⟨rfl, by simp [get_chat_history, h], by simp [get_chat_history, h], ?_⟩
  intro res hres
  rw [show (get_chat_history st sid limit offset).1 =
      .ok ((((st.messages.filter (fun m => m.session_id == uid)).mergeSort
        msgCreatedLE).drop offset).take limit) from by simp [get_chat_history, h]]
    at hres
  injection hres with hres
  subst hres
  have hsorted : ((st.messages.filter (fun m => m.session_id == uid)).mergeSort
      msgCreatedLE).Pairwise (fun a b => a.created_at ≤ b.created_at) := by
    have hp := List.sorted_mergeSort msgCreatedLE_trans msgCreatedLE_total
      (st.messages.filter (fun m => m.session_id == uid))
    exact hp.imp (fun hab => by simpa [msgCreatedLE] using hab)
  have hsub : ((((st.messages.filter (fun m => m.session_id == uid)).mergeSort
      msgCreatedLE).drop offset).take limit).Sublist
      ((st.messages.filter (fun m => m.session_id == uid)).mergeSort msgCreatedLE) :=
    (List.take_sublist _ _).trans (List.drop_sublist _ _)
  refine ⟨List.length_take_le _ _, hsorted.sublist hsub, ?_, ?_⟩
  · intro m hm
    have hmem := hsub.mem hm
    rw [List.mem_mergeSort, List.mem_filter] at hmem
    exact ⟨hmem.1, by simpa using hmem.2⟩
  · intro hoff hlen
    subst hoff
    rw [List.drop_zero, List.take_of_length_le (by rwa [List.length_mergeSort])]
    exact List.mergeSort_perm _ _

/-- The store after three messages (at times 1, 2, 3) are inserted for the
demo session. -/
def demo3Db : DbState :=
  (insert_chat_message
    (insert_chat_message
      (insert_chat_message oneSessionDb 1 demoSid "user" "m1" 0 none none).2
      2 demoSid "assistant" "m2" 0 none none).2
    3 demoSid "user" "m3" 0 none none).2

/-- The second inserted demo message. -/
def demoMsg2 : Message :=
  { message_id := 1, session_id := 1, role := "assistant", content := "m2",
    created_at := 2, token_usage := 0, page_context := none, metadata := [] }

/-- The third inserted demo message. -/
def demoMsg3 : Message :=
  { message_id := 2, session_id := 1, role := "user", content := "m3",
    created_at := 3, token_usage := 0, page_context := none, metadata := [] }

/-- C6 witness: after inserting three messages, `get_chat_history` with
`limit = 2`, `offset = 1` returns the second and third messages in that
order. -/
theorem c6_witness :
    (get_chat_history demo3Db demoSid 2 1).1 = .ok [demoMsg2, demoMsg3] := by
  rw [(c6_get_history_page demo3Db demoSid 1 (by decide) 2 1).2.2.1,
    List.mergeSort_of_sorted (by decide)]
  exact congrArg Except.ok (by decide)

/-- The ranking comparison is transitive. -/
theorem distLE_trans (dist : List Rat → List Rat → Rat) (q : List Rat)
    (a b c : EmbeddingRow × Rat) :
    distLE dist q a b → distLE dist q b c → distLE dist q a c := by
  simp only [distLE, decide_eq_true_eq]
  exact le_trans

/-- The ranking comparison is total. -/
theorem distLE_total (dist : List Rat → List Rat → Rat) (q : List Rat)
    (a b : EmbeddingRow × Rat) :
    distLE dist q a b || distLE dist q b a := by
  simp only [distLE]
  rcases le_total (dist a.1.embedding q) (dist b.1.embedding q) with hle | hle <;>
    simp [hle]

/-- Every entry of the ranked list carries as its second component the
similarity `1 - dist` of its own row, and its row is one of the candidates. -/
theorem searchRanked_mem (dist : List Rat → List Rat → Rat) (st : DbState)
    (q : List Rat) (stype : Option String) :
    ∀ p ∈ searchRanked dist st q stype,
      p.2 = 1 - dist p.1.embedding q ∧ p.1 ∈ searchCandidates st stype := by
  intro p hp
  unfold searchRanked at hp
  rw [List.mem_mergeSort, List.mem_map] at hp
  obtain ⟨r, hr, hrp⟩ := hp
  rw [← hrp]
  exact ⟨rfl, hr⟩

/-- The ranked list is sorted by ascending distance to the query. -/
theorem searchRanked_sorted (dist : List Rat → List Rat → Rat) (st : DbState)
    (q : List Rat) (stype : Option String) :
    (searchRanked dist st q stype).Pairwise
      (fun a b => dist a.1.embedding q ≤ dist b.1.embedding q) := by
  unfold searchRanked
  have hp := List.sorted_mergeSort (distLE_trans dist q) (distLE_total dist q)
    ((searchCandidates st stype).map (fun r => (r, 1 - dist r.embedding q)))
  exact hp.imp (fun hab => by simpa [distLE] using hab)

/-- Every row of the `LIMIT` page is at distance at most that of every row
beyond the page. -/
theorem searchRanked_page_le (dist : List Rat → List Rat → Rat) (st : DbState)
    (q : List Rat) (stype : Option String) (limit : Nat) :
    ∀ x ∈ (searchRanked dist st q stype).take limit,
    ∀ y ∈ (searchRanked dist st q stype).drop limit,
      dist x.1.embedding q ≤ dist y.1.embedding q := by
  have hs := searchRanked_sorted dist st q stype
  rw [← List.take_append_drop limit (searchRanked dist st q stype),
    List.pairwise_append] at hs
  exact hs.2.2

/-- When the post-`LIMIT` threshold filter returns fewer than `limit` rows,
every row beyond the page has similarity strictly below the threshold: the
page holds the `limit` closest rows, similarity is `1 - distance`, and a
dropped page row already fails the threshold. -/
theorem search_under_limit_no_qualified_beyond (dist : List Rat → List Rat → Rat)
    (st : DbState) (q : List Rat) (stype : Option String) (limit : Nat) (th : Rat)
    (res : List (EmbeddingRow × Rat))
    (hres : (search_similar_embeddings dist st q stype limit th).1 = .ok res)
    (hlen : res.length < limit) :
    ∀ r ∈ (searchRanked dist st q stype).drop limit, r.2 < th := by
  have hres' : res = ((searchRanked dist st q stype).take limit).filter
      (fun p => th ≤ p.2) := by
    unfold search_similar_embeddings at hres
    injection hres with hres
    exact hres.symm
  intro r hr
  have hranklen : limit < (searchRanked dist st q stype).length := by
    by_contra hle
    push_neg at hle
    rw [List.drop_eq_nil_of_le hle] at hr
    cases hr
  have hpagelen : ((searchRanked dist st q stype).take limit).length = limit := by
    rw [List.length_take]
    exact Nat.min_eq_left (le_of_lt hranklen)
  have hexists : ∃ p ∈ (searchRanked dist st q stype).take limit, ¬ (th ≤ p.2) := by
    by_contra hall
    push_neg at hall
    have heq : ((searchRanked dist st q stype).take limit).filter
        (fun p => th ≤ p.2) = (searchRanked dist st q stype).take limit :=
      List.filter_eq_self.mpr (fun a ha => by simpa using hall a ha)
    rw [hres', heq, hpagelen] at hlen
    exact lt_irrefl _ hlen
  obtain ⟨p, hpmem, hpth⟩ := hexists
  have hple := searchRanked_page_le dist st q stype limit p hpmem r hr
  have hp2 := (searchRanked_mem dist st q stype p
    ((List.take_sublist _ _).mem hpmem)).1
  have hr2 := (searchRanked_mem dist st q stype r
    ((List.drop_sublist _ _).mem hr)).1
  have hr_le_p : r.2 ≤ p.2 := by
    rw [hp2, hr2]
    linarith
  exact lt_of_le_of_lt hr_le_p (lt_of_not_le hpth)

/-- C1 counterexample: the claimed edge case is impossible. There is no
distance operator, store, query, source filter, limit and nonzero threshold
for which `search_similar_embeddings` returns fewer than `limit` rows while
some row beyond the `LIMIT` page still meets the threshold: similarity is
`1 - distance` of the very column the ranking sorts on, so rows beyond the
page never score above a page row that the threshold filter discarded. -/
theorem c1_counterexample :
    ¬ ∃ (dist : List Rat → List Rat → Rat) (st : DbState) (q : List Rat)
      (stype : Option String) (limit : Nat) (th : Rat)
      (res : List (EmbeddingRow × Rat)) (r : EmbeddingRow × Rat),
      (search_similar_embeddings dist st q stype limit th).1 = .ok res ∧
      0 < th ∧ res.length < limit ∧
      r ∈ (searchRanked dist st q stype).drop limit ∧ th ≤ r.2 := by
  rintro ⟨dist, st, q, stype, limit, th, res, r, hres, _, hlen, hr, hge⟩
  exact absurd hge (not_le.mpr
    (search_under_limit_no_qualified_beyond dist st q stype limit th res
      hres hlen r hr))

/-- C1 (corrected): `search_similar_embeddings` computes each row's
similarity as `1 - dist(embedding, query)`, restricts the candidates to the
supplied source type before ranking (for a nonempty source type — Python
truthiness makes an empty string mean no filter), orders them by ascending
distance, truncates to the `limit` page and only then discards rows below the
threshold; consequently every returned row meets the threshold and at most
`limit` rows return — but, contrary to the claimed edge case, whenever fewer
than `limit` rows are returned every row beyond the page falls strictly
below the threshold, so the post-limit filter never hides qualified matches
beyond the page. -/
theorem c1_amended_search_similar (dist : List Rat → List Rat → Rat)
    (st : DbState) (q : List Rat) (stype : Option String) (limit : Nat)
    (th : Rat) :
    (search_similar_embeddings dist st q stype limit th).2 = st ∧
    (search_similar_embeddings dist st q stype limit th).1 =
      .ok (((searchRanked dist st q stype).take limit).filter
        (fun p => th ≤ p.2)) ∧
    (∀ p ∈ searchRanked dist st q stype,
      p.2 = 1 - dist p.1.embedding q ∧ p.1 ∈ searchCandidates st stype) ∧
    (∀ t, stype = some t → t ≠ "" →
      searchCandidates st stype =
        st.embeddings.filter (fun r => r.source_type == t)) ∧
    (stype = none → searchCandidates st stype = st.embeddings) ∧
    (searchRanked dist st q stype).Pairwise
      (fun a b => dist a.1.embedding q ≤ dist b.1.embedding q) ∧
    (∀ res, (search_similar_embeddings dist st q stype limit th).1 = .ok res →
      res.length ≤ limit ∧
      (∀ p ∈ res, th ≤ p.2) ∧
      (res.length < limit →
        ∀ r ∈ (searchRanked dist st q stype).drop limit, r.2 < th)) := by
  refine ⟨rfl, rfl, searchRanked_mem dist st q stype, ?_, ?_,
    searchRanked_sorted dist st q stype, ?_⟩
  · intro t hst hne
    subst hst
    simp [searchCandidates, hne]
  · intro hst
    subst hst
    rfl
  · intro res hres
    have hres' : res = ((searchRanked dist st q stype).take limit).filter
        (fun p => th ≤ p.2) := by
      unfold search_similar_embeddings at hres
      injection hres with hres
      exact hres.symm
    refine ⟨?_, ?_, fun hlt => search_under_limit_no_qualified_beyond dist st q
      stype limit th res hres hlt⟩
    · rw [hres']
      exact le_trans (List.length_filter_le _ _) (List.length_take_le _ _)
    · intro p hp
      rw [hres'] at hp
      rw [List.mem_filter] at hp
      simpa using hp.2

/-- A concrete stand-in for the engine's distance operator on 1-dimensional
vectors: the stored head value itself. -/
def demoDist (a b : List Rat) : Rat := a.headD 0 + 0 * b.headD 0

/-- A stored row at distance 0 from any query under `demoDist`. -/
def searchRow1 : EmbeddingRow :=
  { embedding_id := 0, source_type := "product", source_id := "p1",
    content_chunk := "c1", embedding := [0], metadata := [] }

/-- A stored row at distance 1/2 from any query under `demoDist`. -/
def searchRow2 : EmbeddingRow :=
  { embedding_id := 1, source_type := "product", source_id := "p2",
    content_chunk := "c2", embedding := [1/2], metadata := [] }

/-- A store holding the two search demo rows. -/
def searchDb : DbState := { emptyDb with embeddings := [searchRow1, searchRow2] }

/-- C1 witness: with no source filter the candidates are the whole table;
with limit 1 and threshold 3/4 the search returns exactly the closest row
(similarity 1); and with threshold 2 the page row is filtered out — fewer
than `limit` rows return — while every row beyond the page indeed scores
strictly below the threshold. -/
theorem c1_witness :
    searchCandidates searchDb none = searchDb.embeddings ∧
    (search_similar_embeddings demoDist searchDb [] none 1 ((3 : Rat)/4)).1 =
      .ok [(searchRow1, 1)] ∧
    (∀ r ∈ (searchRanked demoDist searchDb [] none).drop 1, r.2 < (2 : Rat)) := by
  have H := c1_amended_search_similar demoDist searchDb [] none 1 (2 : Rat)
  have H34 := c1_amended_search_similar demoDist searchDb [] none 1 ((3 : Rat)/4)
  have hres : (search_similar_embeddings demoDist searchDb [] none 1 (2 : Rat)).1 =
      .ok [] := by
    rw [H.2.1]
    unfold searchRanked
    rw [List.mergeSort_of_sorted (by
      norm_num [searchCandidates, searchDb, emptyDb, searchRow1, searchRow2,
        distLE, demoDist])]
    refine congrArg Except.ok ?_
    norm_num [searchCandidates, searchDb, emptyDb, searchRow1, searchRow2, demoDist]
  refine ⟨H.2.2.2.2.1 rfl, ?_, (H.2.2.2.2.2.2 [] hres).2.2 (by decide)⟩
  rw [H34.2.1]
  unfold searchRanked
  rw [List.mergeSort_of_sorted (by
    norm_num [searchCandidates, searchDb, emptyDb, searchRow1, searchRow2,
      distLE, demoDist])]
  refine congrArg Except.ok ?_
  norm_num [searchCandidates, searchDb, emptyDb, searchRow1, searchRow2, demoDist]

/-- C8 witness: deleting the `(product, p1)` embeddings and immediately
deleting again returns zero the second time. -/
theorem c8_witness :
    (delete_embeddings_by_source
      (delete_embeddings_by_source searchDb "product" "p1").2 "product" "p1").1 =
      .ok 0 :=
  (c8_delete_embeddings_by_source searchDb "product" "p1").2.2.2.1

/-- C9 witness: at a concrete failing inner call, the operations layer logs
and re-raises (`create_chat_session`), the pool raises its configuration
error unlogged on an empty `DATABASE_URL`, a pool-creation failure is
logged and re-raised, and `verify_database` turns the failure into a
printed line with exit status 1. -/
theorem c9_witness :
    create_chat_session (.error (PyErr.postgresError "boom")) =
      ([.error ("Error creating chat session: " ++
          (PyErr.postgresError "boom").describe)],
        .error (PyErr.postgresError "boom")) ∧
    get_database_pool (some "") (.ok ()) { pool := none, next_pool := 0 } =
      ([], (.error (PyErr.valueError "DATABASE_URL environment variable is not set"),
        { pool := none, next_pool := 0 })) ∧
    get_database_pool (some "dsn") (.error (PyErr.postgresError "boom"))
        { pool := none, next_pool := 0 } =
      ([.error ("Failed to create database connection pool: " ++
          (PyErr.postgresError "boom").describe)],
       (.error (PyErr.postgresError "boom"), { pool := none, next_pool := 0 })) ∧
    verify_database (some "dsn") (.error (PyErr.postgresError "boom")) =
      (["Error: " ++ (PyErr.postgresError "boom").describe], 1) := by
  obtain ⟨h1, -, -, -, -, -, -, -, -, -, -, -, h13, h14, -, -, -, h18, -⟩ :=
    c9_amended_error_reporting (PyErr.postgresError "boom") "dsn" "sid" "ty" "si"
      { pool := none, next_pool := 0 } (.ok ())
  exact ⟨h1, (h13 rfl).2, h14 rfl (by decide), h18 (by decide)⟩
